import Mathlib

/-!
Shallow embedding of `src/app.ts` (a TypeScript demonstration module).

The module's observable behavior is console output and one DOM field write.
We model:
  - a printed console line of `console.log(label, value)` as a
    `String × String` pair (label, rendered value);
  - JS numbers as rationals (`ℚ`); the demos use only exactly
    representable values, so no floating-point rounding is observable;
  - a possibly-absent JS value as an `Option`;
  - the DOM write paths as functions returning `Except` (an exception
    aborts the path) together with the list of field writes performed.
-/

/-! ## 4.2 Field-presence inspection (`printEmployeeInformation`) -/

/-- A value of the union `Employee | Admin` (plus the intersection
`ElevatedEmployee`), seen structurally at runtime: a `name` is always
present, while `privileges` and `startDate` may each be absent.
The TS `Date` value is modelled by its epoch timestamp. -/
structure UnknownEmployee where
  name : String
  privileges : Option (List String)
  startDate : Option Nat

/-- `printEmployeeInformation` from the source: logs the name
unconditionally, then the privileges field under an `"privileges" in emp`
check, then the start date under a `"startDate" in emp` check.
The result is the list of logged `(label, value)` lines. -/
def printEmployeeInformation (emp : UnknownEmployee) : List (String × String) :=
  [("Name: ", emp.name)] ++
  (match emp.privileges with
   | some privileges => [("Privileges: ", toString privileges)]
   | none => []) ++
  (match emp.startDate with
   | some startDate => [("Start Date: ", toString startDate)]
   | none => [])

/-- `e1` from the source (`startDate: new Date()` modelled at timestamp 0). -/
def e1 : UnknownEmployee :=
  { name := "Geo", privileges := some ["create-server"], startDate := some 0 }

/-! ## 4.4 Capability-gated dispatch (`useVehicle`) -/

/-- The two classes `Car` and `Truck`; the runtime kind of a value
(what `instanceof` inspects). Neither class carries data. -/
inductive Vehicle
  | car
  | truck
deriving DecidableEq

/-- An invocation of a capability on a vehicle value. -/
inductive VehicleCall
  | drive
  | loadCargo (amount : ℚ)
deriving DecidableEq

def VehicleCall.isDrive : VehicleCall → Bool
  | .drive => true
  | _ => false

def VehicleCall.isLoadCargo : VehicleCall → Bool
  | .loadCargo _ => true
  | _ => false

/-- `useVehicle` from the source: always call `vehicle.drive()`, and call
`vehicle.loadCargo(1000)` only under the `vehicle instanceof Truck` guard.
The result is the sequence of capability invocations performed. -/
def useVehicle (vehicle : Vehicle) : List VehicleCall :=
  [VehicleCall.drive] ++
  (match vehicle with
   | Vehicle.truck => [VehicleCall.loadCargo 1000]
   | Vehicle.car => [])

/-! ## 4.3 Tag-based dispatch (`moveAnimal`) -/

/-- A tagged animal value as the JS runtime sees it: a `type` tag string
and two possibly-absent numeric fields (reading an absent field yields
`undefined`, i.e. `none`).  The TS type `Animal = Bird | Horse` restricts
the tag to `"bird"`/`"horse"` and forces the matching field to be present,
but the tag restriction is erased at runtime. -/
structure AnimalObj where
  type : String
  flyingSpeed : Option ℚ
  runningSpeed : Option ℚ

/-- The `speed` variable of `moveAnimal` after its `switch (animal.type)`:
initialized to `undefined` (`none`), set to `animal.flyingSpeed` in the
`"bird"` case and to `animal.runningSpeed` in the `"horse"` case; the
switch has no default case, so any other tag leaves it `undefined`. -/
def moveAnimalSpeed (animal : AnimalObj) : Option ℚ :=
  match animal.type with
  | "bird" => animal.flyingSpeed
  | "horse" => animal.runningSpeed
  | _ => none

/-- JS string coercion of a possibly-undefined number, as used when
`speed` is spliced into the logged message. -/
def displayNum : Option ℚ → String
  | some q => toString q
  | none => "undefined"

/-- `moveAnimal` from the source: the single line it logs. -/
def moveAnimal (animal : AnimalObj) : String :=
  "Moving with speed: " ++ displayNum (moveAnimalSpeed animal)

/-! ## 4.7 Shape-directed overload resolution (`add`) -/

/-- A value of the union type `Combinable = string | number`. -/
inductive CValue
  | num (n : ℚ)
  | str (s : String)
deriving DecidableEq

/-- JS `.toString()` on a `Combinable` value. -/
def CValue.jsToString : CValue → String
  | .num n => toString n
  | .str s => s

/-- `add` from the source: the implementation body guards with
`typeof a === "string" || typeof b === "string"` and concatenates the
string coercions in that case; only the remaining case, both arguments
numbers, reaches the arithmetic sum. -/
def add : CValue → CValue → CValue
  | CValue.num a, CValue.num b => CValue.num (a + b)
  | a, b => CValue.str (a.jsToString ++ b.jsToString)

/-- `const result = add(1, 5)` from the source. -/
def result : CValue := add (CValue.num 1) (CValue.num 5)

/-- `const result2 = add("Geo", " Sauer")` from the source
(subsequently split by `" "`). -/
def result2 : CValue := add (CValue.str "Geo") (CValue.str " Sauer")

/-! ## 4.5 Asserted-presence cast-and-mutate (`userInputElement`) -/

/-- A handle returned by the external document store: either an input
element exposing a writable `value` field (the richer shape the casts
assert), or some other element that lacks that field. -/
inductive Handle
  | inputElement (value : String)
  | plainElement

/-- Modelled from the spec: the external document-object store's
field-write primitive is not code of this repository, so its semantics is
taken from §4.5/§7 of the specification: writing the `value` field of an
absent handle, or of a handle lacking the writable text-value field,
fails fast with a dereference/attribute error; writing it on an input
element performs exactly that one field write.  The result carries the
list of field writes performed. -/
def setInputValue (r : Option Handle) (v : String) : Except String (List String) :=
  match r with
  | none => Except.error "TypeError: cannot set value of null"
  | some (Handle.inputElement _) => Except.ok [v]
  | some Handle.plainElement => Except.error "TypeError: no writable value field"

/-- Contract A (`userInputElement1`): cast `<HTMLInputElement>... !` then
write `.value` unguarded; the cast and the `!` are erased at runtime, so
this is a bare write on whatever the lookup returned. -/
def userInputElement1Write (r : Option Handle) (v : String) : Except String (List String) :=
  setInputValue r v

/-- Contract B (`userInputElement3`): the `if (userInputElement3)` guard;
only inside the truthy branch is the richer shape asserted and the field
written. -/
def userInputElement3Write (r : Option Handle) (v : String) : Except String (List String) :=
  match r with
  | some el => setInputValue (some el) v
  | none => Except.ok []

/-! ## 4.8 Optional chaining (`fetchedUserData`) -/

structure Job where
  title : String
  description : String
deriving DecidableEq

/-- The shape of `fetchedUserData`, with `job` treated as a possibly-absent
link as the surrounding demo discusses (`with job removed from the object
...`). -/
structure UserData where
  id : String
  name : String
  job : Option Job
deriving DecidableEq

/-- `const fetchedUserData = { id: "u1", name: "Geo", job: {...} }`. -/
def fetchedUserData : UserData :=
  { id := "u1", name := "Geo", job := some { title := "CEO", description := "My own company" } }

/-- `fetchedUserData?.job?.title`: each `?.` checks the value to its left
and short-circuits the whole chain to `undefined` (`none`) when that value
is absent, instead of raising. -/
def optionalChainJobTitle (user : Option UserData) : Option String :=
  match user with
  | none => none
  | some u =>
    match u.job with
    | none => none
    | some j => some j.title

/-! ## 4.8 Nullish coalescing vs logical or (`storedDatas`) -/

/-- A JS value, sufficient for the truthiness/nullishness demos.
(`NaN`, also falsy in JS, has no exact rational representation and does
not occur in this module.) -/
inductive JSVal
  | nullV
  | undefinedV
  | strV (s : String)
  | numV (n : ℚ)
  | boolV (b : Bool)
deriving DecidableEq

/-- JS truthiness: `null`, `undefined`, `""`, `0` and `false` are falsy. -/
def JSVal.truthy : JSVal → Bool
  | .nullV => false
  | .undefinedV => false
  | .strV s => s != ""
  | .numV n => n != 0
  | .boolV b => b

/-- Nullishness: only `null` and `undefined` are nullish. -/
def JSVal.isNullish : JSVal → Bool
  | .nullV => true
  | .undefinedV => true
  | _ => false

/-- JS `a || b`: `b` whenever `a` is falsy. -/
def logicalOr (a b : JSVal) : JSVal :=
  if a.truthy then a else b

/-- JS `a ?? b`: `b` exactly when `a` is nullish. -/
def nullishCoalesce (a b : JSVal) : JSVal :=
  if a.isNullish then b else a

/-- `const userInput = null`. -/
def userInput : JSVal := JSVal.nullV

/-- `const storedData = userInput || "DEFAULT"`. -/
def storedData : JSVal := logicalOr userInput (JSVal.strV "DEFAULT")

/-- `const storedDatas = userInput ?? "DEFAULT"`. -/
def storedDatas : JSVal := nullishCoalesce userInput (JSVal.strV "DEFAULT")

/-! ## Theorems, one per claim -/

/-- C1: for inputs each either a number or a string, `add` returns the
arithmetic sum when both are numeric and the concatenation of both
inputs' string coercions when at least one is a string; in particular
`add(1, 5) = 6`, `add("Geo", " Sauer") = "Geo Sauer"`, and that result
splits by a space into `["Geo", "Sauer"]`. -/
theorem add_overload_resolution :
    (∀ x y : ℚ, add (CValue.num x) (CValue.num y) = CValue.num (x + y)) ∧
    (∀ s : String, ∀ b : CValue,
      add (CValue.str s) b = CValue.str (s ++ b.jsToString)) ∧
    (∀ a : CValue, ∀ s : String,
      add a (CValue.str s) = CValue.str (a.jsToString ++ s)) ∧
    result = CValue.num 6 ∧
    result2 = CValue.str "Geo Sauer" ∧
    result2.jsToString.split (fun c => c == ' ') = ["Geo", "Sauer"] := by
  refine ⟨fun x y => rfl, fun s b => ?_, fun a s => ?_, ?_, ?_, ?_⟩
  · cases b <;> rfl
  · cases a <;> rfl
  · show CValue.num (1 + 5) = CValue.num 6
    norm_num
  · rfl
  · rw [String.split_of_valid]
    rfl

/-- C2: a tagged value whose discriminator is `"bird"` moves at its
`flyingSpeed` field, and one whose discriminator is `"horse"` moves at
its `runningSpeed` field. -/
theorem moveAnimal_tag_dispatch (fs rs : Option ℚ) :
    moveAnimalSpeed { type := "bird", flyingSpeed := fs, runningSpeed := rs } = fs ∧
    moveAnimalSpeed { type := "horse", flyingSpeed := fs, runningSpeed := rs } = rs := by
  exact ⟨rfl, rfl⟩

/-- C3: the code does NOT treat an out-of-domain discriminator as an
invariant violation: `moveAnimal` on a value tagged `"dragon"` falls
through the tagless `switch` and silently logs an undefined speed. -/
theorem moveAnimal_unknown_tag_silently_undefined :
    moveAnimal { type := "dragon", flyingSpeed := none, runningSpeed := none } =
      "Moving with speed: undefined" := by
  rfl

/-- C4: the name line is logged unconditionally; the privileges line is
logged iff the value carries a `privileges` field and the start-date line
iff it carries a `startDate` field, the two independently. -/
theorem printEmployeeInformation_presence (emp : UnknownEmployee) :
    (printEmployeeInformation emp).head? = some ("Name: ", emp.name) ∧
    (printEmployeeInformation emp).any (fun l => l.1 == "Privileges: ") =
      emp.privileges.isSome ∧
    (printEmployeeInformation emp).any (fun l => l.1 == "Start Date: ") =
      emp.startDate.isSome := by
  obtain ⟨n, p, d⟩ := emp
  cases p <;> cases d <;> simp [printEmployeeInformation]

/-- C5: a `useVehicle` call invokes `drive` exactly once on every vehicle,
invokes `loadCargo` exactly once on a `Truck`, and never invokes
`loadCargo` on a `Car`. -/
theorem useVehicle_capability_calls :
    (∀ v : Vehicle, (useVehicle v).countP (fun c => c.isDrive) = 1) ∧
    (useVehicle Vehicle.truck).countP (fun c => c.isLoadCargo) = 1 ∧
    (useVehicle Vehicle.car).countP (fun c => c.isLoadCargo) = 0 := by
  refine ⟨fun v => ?_, rfl, rfl⟩
  cases v <;> rfl

/-- C6: the guarded path (`userInputElement3`) raises no failure and
attempts no write when the lookup result is absent, and performs exactly
one write of the given value when the result is an input element. -/
theorem userInputElement3_guarded (v : String) :
    userInputElement3Write none v = Except.ok [] ∧
    ∀ s : String,
      userInputElement3Write (some (Handle.inputElement s)) v = Except.ok [v] := by
  exact ⟨rfl, fun s => rfl⟩

/-- C7: the unchecked-assertion path (`userInputElement1`) fails fast with
a dereference/attribute error at the write when the lookup result is
absent, or present but lacking the writable `value` field; the error is
the path's final result (no local recovery). -/
theorem userInputElement1_fails_fast (v : String) :
    userInputElement1Write none v =
      Except.error "TypeError: cannot set value of null" ∧
    userInputElement1Write (some Handle.plainElement) v =
      Except.error "TypeError: no writable value field" := by
  exact ⟨rfl, rfl⟩

/-- C8: `??` yields the fallback exactly when the primary is nullish
(`null`/`undefined`) and otherwise yields the primary even when falsy; in
particular `null ?? "DEFAULT" = "DEFAULT"` (so `storedDatas = "DEFAULT"`),
`"" ?? "DEFAULT" = ""` while `"" || "DEFAULT" = "DEFAULT"`, so the two
operators diverge on the empty string. -/
theorem nullishCoalesce_vs_logicalOr :
    (∀ b : JSVal, nullishCoalesce JSVal.nullV b = b) ∧
    (∀ b : JSVal, nullishCoalesce JSVal.undefinedV b = b) ∧
    (∀ b : JSVal, ∀ s : String, nullishCoalesce (JSVal.strV s) b = JSVal.strV s) ∧
    (∀ b : JSVal, ∀ n : ℚ, nullishCoalesce (JSVal.numV n) b = JSVal.numV n) ∧
    (∀ b : JSVal, ∀ bo : Bool, nullishCoalesce (JSVal.boolV bo) b = JSVal.boolV bo) ∧
    storedDatas = JSVal.strV "DEFAULT" ∧
    nullishCoalesce (JSVal.strV "") (JSVal.strV "DEFAULT") = JSVal.strV "" ∧
    logicalOr (JSVal.strV "") (JSVal.strV "DEFAULT") = JSVal.strV "DEFAULT" ∧
    nullishCoalesce (JSVal.strV "") (JSVal.strV "DEFAULT") ≠
      logicalOr (JSVal.strV "") (JSVal.strV "DEFAULT") := by
  refine ⟨fun b => rfl, fun b => rfl, fun b s => rfl, fun b n => rfl,
    fun b bo => ?_, rfl, rfl, rfl, by decide⟩
  cases bo <;> rfl

/-- C9: the chained optional access `fetchedUserData?.job?.title`
short-circuits to an absent result as soon as any link is absent (the base
value, or its `job` field) and yields the title when every link is
present; it is a total function, so it never raises. -/
theorem optionalChain_short_circuits :
    optionalChainJobTitle none = none ∧
    (∀ i n : String,
      optionalChainJobTitle (some { id := i, name := n, job := none }) = none) ∧
    (∀ i n : String, ∀ j : Job,
      optionalChainJobTitle (some { id := i, name := n, job := some j }) =
        some j.title) ∧
    optionalChainJobTitle (some fetchedUserData) = some "CEO" := by
  exact ⟨rfl, fun i n => rfl, fun i n j => rfl, rfl⟩

/-- C10: `add` is commutative on the numeric–numeric input shape, though
not on textual inputs. -/
theorem add_num_comm :
    (∀ x y : ℚ, add (CValue.num x) (CValue.num y) = add (CValue.num y) (CValue.num x)) ∧
    add (CValue.str "Geo") (CValue.str " Sauer") ≠
      add (CValue.str " Sauer") (CValue.str "Geo") := by
  constructor
  · intro x y
    show CValue.num (x + y) = CValue.num (y + x)
    rw [add_comm]
  · decide
